import Mathlib

/-!
Verification of the weather forecast store and service
(`weather_api/data_handler.py`, `weather_api/api.py`).

Timestamps are modelled as rational numbers of seconds (pandas naive
timestamps form a linear order; all arithmetic the code performs on them —
subtraction of a horizon, adding one day, zeroing the clock fields — is
exact arithmetic over that line).  Values and horizons are rationals as
well: every float operation the code performs on them (division by 3600,
multiplication back, percentile interpolation, comparisons) is carried out
exactly here.
-/

/-- Sensor names occurring in the dataset, from the `sensor` column. -/
inductive Sensor where
  | temperature
  | wind_speed
  | irradiance
deriving DecidableEq, Repr

/-- One row of the loaded dataframe: `event_start`, `sensor`, `event_value`
and `belief_horizon_in_sec`, as read by `WeatherDataHandler.__init__`. -/
structure Obs where
  event_start : ℚ
  sensor : Sensor
  event_value : ℚ
  belief_horizon_in_sec : ℚ
deriving DecidableEq, Repr

/-- Derived column `belief_horizon` (hours): `belief_horizon_in_sec / 3600`
(data_handler.py line 19). -/
def beliefHorizonHours (o : Obs) : ℚ :=
  o.belief_horizon_in_sec / 3600

/-- Derived column `belief_time = event_start - to_timedelta(belief_horizon, unit=h)`
(data_handler.py line 20): the horizon in hours converted back to seconds. -/
def beliefTime (o : Obs) : ℚ :=
  o.event_start - beliefHorizonHours o * 3600

/-- Values of the `event_value` column restricted to one sensor
(data_handler.py lines 23-25). -/
def sensorValues (rows : List Obs) (s : Sensor) : List ℚ :=
  (rows.filter (fun o => decide (o.sensor = s))).map Obs.event_value

/-- The 75th percentile with numpy's default linear interpolation:
at rank `0.75 * (n - 1)` between the order statistics (the sort is an
ascending stable sort; any sort yields the same order statistics). -/
def percentile75 (l : List ℚ) : ℚ :=
  let sorted := l.insertionSort (fun a b => a ≤ b)
  let k : Nat := 3 * (l.length - 1) / 4
  let r : Nat := 3 * (l.length - 1) % 4
  let a := sorted.getD k 0
  let b := sorted.getD (k + 1) a
  a + ((r : ℚ) / 4) * (b - a)

/-- The state built by `WeatherDataHandler.__init__`: the dataframe rows and
the three thresholds computed once at load time (lines 28-30). -/
structure Handler where
  df : List Obs
  TEMP_THRESHOLD : ℚ
  WIND_THRESHOLD : ℚ
  IRR_THRESHOLD : ℚ
deriving DecidableEq, Repr

/-- `WeatherDataHandler.__init__` on already-parsed rows: keeps the rows and
sets each threshold to the 75th percentile of that sensor's values, or to the
default (`15.0`, `3.0`, `200.0`) when the sensor has no data. -/
def load (rows : List Obs) : Handler :=
  { df := rows
    TEMP_THRESHOLD :=
      if (sensorValues rows .temperature).isEmpty then 15
      else percentile75 (sensorValues rows .temperature)
    WIND_THRESHOLD :=
      if (sensorValues rows .wind_speed).isEmpty then 3
      else percentile75 (sensorValues rows .wind_speed)
    IRR_THRESHOLD :=
      if (sensorValues rows .irradiance).isEmpty then 200
      else percentile75 (sensorValues rows .irradiance) }

/-- Result of a store query: the returned payload, or the `ValueError` that
`api.py` maps to 404 (the only error either query raises on its own). -/
inductive StoreResult (α : Type) where
  | ok (a : α)
  | notFound
deriving DecidableEq, Repr

/-- The mask of `get_forecasts` (lines 46-49):
`belief_time <= now AND event_start == then`. -/
def matchesPoint (rows : List Obs) (now thn : ℚ) : List Obs :=
  rows.filter (fun o => decide (beliefTime o ≤ now) && decide (o.event_start = thn))

/-- The row a descending sort on `belief_time` followed by `groupby(...).first()`
keeps from a group: a row of maximal `belief_time`, with a deterministic choice
among ties (here: the earliest such row in input order; the source's choice is
deterministic but unspecified). -/
def pickLatest : List Obs → Option Obs
  | [] => none
  | o :: rest =>
    match pickLatest rest with
    | none => some o
    | some b => if beliefTime o < beliefTime b then some b else some o

/-- The observation `get_forecasts` selects for one sensor: the latest-belief
row among the mask's matches carrying that sensor (lines 55-60). -/
def sensorSelect (rows : List Obs) (now thn : ℚ) (s : Sensor) : Option Obs :=
  pickLatest ((matchesPoint rows now thn).filter (fun o => decide (o.sensor = s)))

/-- The payload of `/forecasts`: per sensor the selected value or `None`
(lines 62-69). -/
structure ForecastResult where
  temperature : Option ℚ
  wind_speed : Option ℚ
  irradiance : Option ℚ
deriving DecidableEq, Repr

/-- Field of the result dict addressed by sensor name. -/
def ForecastResult.value (r : ForecastResult) : Sensor → Option ℚ
  | .temperature => r.temperature
  | .wind_speed => r.wind_speed
  | .irradiance => r.irradiance

/-- `WeatherDataHandler.get_forecasts(now, then)` (lines 40-69): filter by the
mask, raise `ValueError` when no row matches, otherwise return per sensor the
`event_value` of the latest-belief matching row, or `None` for a sensor with
no match. -/
def getForecasts (h : Handler) (now thn : ℚ) : StoreResult ForecastResult :=
  let relevant := matchesPoint h.df now thn
  if relevant.isEmpty then .notFound
  else
    .ok
      { temperature := (sensorSelect h.df now thn .temperature).map Obs.event_value
        wind_speed := (sensorSelect h.df now thn .wind_speed).map Obs.event_value
        irradiance := (sensorSelect h.df now thn .irradiance).map Obs.event_value }

/-- One calendar day, in seconds. -/
def daySecs : ℚ := 86400

/-- Start of the calendar day containing `t` (the effect of
`.replace(hour=0, minute=0, second=0, microsecond=0)`). -/
def floorToDay (t : ℚ) : ℚ :=
  ((⌊t / daySecs⌋ : ℤ) : ℚ) * daySecs

/-- `tomorrow_start` of `get_tomorrow_conditions` (line 80):
`(now + timedelta(days=1)).replace(hour=0, ...)`. -/
def tomorrowStart (now : ℚ) : ℚ :=
  floorToDay (now + daySecs)

/-- The mask of `get_tomorrow_conditions` (lines 84-88): `belief_time <= now`
and `event_start` inside `[tomorrow_start, tomorrow_start + 1 day)`. -/
def windowMatches (rows : List Obs) (now : ℚ) : List Obs :=
  rows.filter (fun o =>
    decide (beliefTime o ≤ now) &&
    decide (tomorrowStart now ≤ o.event_start) &&
    decide (o.event_start < tomorrowStart now + daySecs))

/-- The row `groupby([event_start, sensor]).first()` keeps for the group
`(e, s)` of the window matches `tf` (lines 94-99). -/
def bestAt (tf : List Obs) (e : ℚ) (s : Sensor) : Option Obs :=
  pickLatest (tf.filter (fun o => decide (o.event_start = e) && decide (o.sensor = s)))

/-- The per-sensor series `xs(s, level=sensor)[event_value]` of the grouped
frame: one best-known value for every event time of the window that has a row
for sensor `s` (lines 101-106). -/
def selectedValues (tf : List Obs) (s : Sensor) : List ℚ :=
  ((tf.map Obs.event_start).dedup).filterMap
    (fun e => (bestAt tf e s).map Obs.event_value)

/-- `any(series > threshold)` over a selected-values series (lines 109-111). -/
def condAny (tf : List Obs) (thr : ℚ) (s : Sensor) : Bool :=
  (selectedValues tf s).any (fun v => decide (thr < v))

/-- The payload of `/tomorrow` (lines 108-112). -/
structure CondResult where
  warm : Bool
  sunny : Bool
  windy : Bool
deriving DecidableEq, Repr

/-- `WeatherDataHandler.get_tomorrow_conditions(now)` (lines 74-112): filter
to tomorrow's window, raise `ValueError` when empty, otherwise derive the
three booleans from the per-`(event_start, sensor)` best-known values. -/
def getTomorrowConditions (h : Handler) (now : ℚ) : StoreResult CondResult :=
  let tf := windowMatches h.df now
  if tf.isEmpty then .notFound
  else
    .ok
      { warm := condAny tf h.TEMP_THRESHOLD .temperature
        sunny := condAny tf h.IRR_THRESHOLD .irradiance
        windy := condAny tf h.WIND_THRESHOLD .wind_speed }

/-- Responses the service boundary can produce for the two query endpoints. -/
inductive ServiceResponse where
  | okForecast (r : ForecastResult)
  | okTomorrow (c : CondResult)
  | notFound404
  | unprocessable422
deriving DecidableEq, Repr

/-- Modelled from the spec: FastAPI's query-parameter validation of the
`datetime` parameters is not part of `src/`; the spec says malformed
timestamp syntax is rejected with a 422-equivalent before the handler body
runs.  This parser accepts the ISO-8601 shape `YYYY-MM-DDTHH:MM:SS` with
in-range fields and rejects everything else; accepted timestamps are mapped
injectively onto the rational time line (the exact epoch arithmetic is
irrelevant to the service-boundary claims). -/
def parseTimestamp (str : String) : Option ℚ :=
  match str.toList with
  | [y1, y2, y3, y4, '-', m1, m2, '-', d1, d2, 'T', h1, h2, ':', i1, i2, ':', s1, s2] =>
    if (y1.isDigit && y2.isDigit && y3.isDigit && y4.isDigit &&
        m1.isDigit && m2.isDigit && d1.isDigit && d2.isDigit &&
        h1.isDigit && h2.isDigit && i1.isDigit && i2.isDigit &&
        s1.isDigit && s2.isDigit) then
      let y := ((y1.toNat - 48) * 10 + (y2.toNat - 48)) * 100 +
               (y3.toNat - 48) * 10 + (y4.toNat - 48)
      let mo := (m1.toNat - 48) * 10 + (m2.toNat - 48)
      let d := (d1.toNat - 48) * 10 + (d2.toNat - 48)
      let hh := (h1.toNat - 48) * 10 + (h2.toNat - 48)
      let mi := (i1.toNat - 48) * 10 + (i2.toNat - 48)
      let ss := (s1.toNat - 48) * 10 + (s2.toNat - 48)
      if 1 ≤ mo && mo ≤ 12 && 1 ≤ d && d ≤ 31 && hh < 24 && mi < 60 && ss < 60 then
        some (((((((y : ℚ) * 12 + mo) * 31 + d) * 24 + hh) * 60 + mi) * 60 + ss) * 1)
      else none
    else none
  | _ => none

/-- The `/forecasts` endpoint (api.py lines 31-45) together with the
framework's validation step: on unparsable input the handler body never runs
(second component `false`: the store was not invoked) and the response is the
422-equivalent; otherwise the store is invoked and `ValueError` maps to 404.
-/
def serveForecasts (h : Handler) (nowStr thnStr : String) : ServiceResponse × Bool :=
  match parseTimestamp nowStr, parseTimestamp thnStr with
  | some now, some thn =>
    match getForecasts h now thn with
    | .ok r => (.okForecast r, true)
    | .notFound => (.notFound404, true)
  | _, _ => (.unprocessable422, false)

/-- The `/tomorrow` endpoint (api.py lines 47-60), with the same validation
step for its single timestamp parameter. -/
def serveTomorrow (h : Handler) (nowStr : String) : ServiceResponse × Bool :=
  match parseTimestamp nowStr with
  | some now =>
    match getTomorrowConditions h now with
    | .ok c => (.okTomorrow c, true)
    | .notFound => (.notFound404, true)
  | none => (.unprocessable422, false)

/-! Basic lemmas about the embedding. -/

lemma mem_matchesPoint {rows : List Obs} {now thn : ℚ} {o : Obs} :
    o ∈ matchesPoint rows now thn ↔
      o ∈ rows ∧ beliefTime o ≤ now ∧ o.event_start = thn := by
  simp [matchesPoint, List.mem_filter]

lemma mem_windowMatches {rows : List Obs} {now : ℚ} {o : Obs} :
    o ∈ windowMatches rows now ↔
      o ∈ rows ∧ beliefTime o ≤ now ∧ tomorrowStart now ≤ o.event_start ∧
        o.event_start < tomorrowStart now + daySecs := by
  simp [windowMatches, List.mem_filter, and_assoc]

lemma pickLatest_eq_none_iff {l : List Obs} : pickLatest l = none ↔ l = [] := by
  cases l with
  | nil => simp [pickLatest]
  | cons o rest =>
    simp only [pickLatest]
    cases hr : pickLatest rest with
    | none => simp
    | some b => by_cases hb : beliefTime o < beliefTime b <;> simp [hb]

lemma pickLatest_mem {l : List Obs} {o : Obs} (h : pickLatest l = some o) : o ∈ l := by
  induction l generalizing o with
  | nil => simp [pickLatest] at h
  | cons a rest ih =>
    simp only [pickLatest] at h
    cases hr : pickLatest rest with
    | none => rw [hr] at h; simp at h; simp [h]
    | some b =>
      rw [hr] at h
      by_cases hb : beliefTime a < beliefTime b
      · simp [hb] at h
        subst h
        exact List.mem_cons_of_mem a (ih hr)
      · simp [hb] at h
        simp [← h]

lemma pickLatest_max {l : List Obs} {o : Obs} (h : pickLatest l = some o) :
    ∀ x ∈ l, beliefTime x ≤ beliefTime o := by
  induction l generalizing o with
  | nil => simp [pickLatest] at h
  | cons a rest ih =>
    simp only [pickLatest] at h
    intro x hx
    cases hr : pickLatest rest with
    | none =>
      rw [hr] at h
      simp at h
      rcases List.mem_cons.mp hx with hxa | hxr
      · rw [hxa, h]
      · rw [pickLatest_eq_none_iff.mp hr] at hxr
        simp at hxr
    | some b =>
      rw [hr] at h
      by_cases hb : beliefTime a < beliefTime b
      · simp [hb] at h
        subst h
        rcases List.mem_cons.mp hx with hxa | hxr
        · rw [hxa]
          exact le_of_lt hb
        · exact ih hr x hxr
      · simp [hb] at h
        subst h
        rcases List.mem_cons.mp hx with hxa | hxr
        · rw [hxa]
        · exact le_trans (ih hr x hxr) (le_of_not_lt hb)

lemma pickLatest_isSome {l : List Obs} (h : l ≠ []) : ∃ o, pickLatest l = some o := by
  cases ho : pickLatest l with
  | none => exact absurd (pickLatest_eq_none_iff.mp ho) h
  | some o => exact ⟨o, rfl⟩

lemma getForecasts_notFound_iff {h : Handler} {now thn : ℚ} :
    getForecasts h now thn = .notFound ↔ matchesPoint h.df now thn = [] := by
  simp only [getForecasts]
  split <;> rename_i hsplit
  · simpa [List.isEmpty_iff] using hsplit
  · simp [List.isEmpty_iff] at hsplit
    simp [hsplit]

lemma getForecasts_ok_of_ne {h : Handler} {now thn : ℚ}
    (hne : matchesPoint h.df now thn ≠ []) :
    getForecasts h now thn =
      .ok { temperature := (sensorSelect h.df now thn .temperature).map Obs.event_value
            wind_speed := (sensorSelect h.df now thn .wind_speed).map Obs.event_value
            irradiance := (sensorSelect h.df now thn .irradiance).map Obs.event_value } := by
  simp only [getForecasts]
  rw [if_neg (by simpa [List.isEmpty_iff] using hne)]

lemma getForecasts_ok_value {h : Handler} {now thn : ℚ} {r : ForecastResult}
    (hok : getForecasts h now thn = .ok r) (s : Sensor) :
    r.value s = (sensorSelect h.df now thn s).map Obs.event_value := by
  simp only [getForecasts] at hok
  split at hok
  · exact absurd hok (by simp)
  · cases hok
    cases s <;> rfl

lemma getTomorrow_notFound_iff {h : Handler} {now : ℚ} :
    getTomorrowConditions h now = .notFound ↔ windowMatches h.df now = [] := by
  simp only [getTomorrowConditions]
  split <;> rename_i hsplit
  · simpa [List.isEmpty_iff] using hsplit
  · simp [List.isEmpty_iff] at hsplit
    simp [hsplit]

lemma getTomorrow_ok_val {h : Handler} {now : ℚ} {c : CondResult}
    (hok : getTomorrowConditions h now = .ok c) :
    c = { warm := condAny (windowMatches h.df now) h.TEMP_THRESHOLD .temperature
          sunny := condAny (windowMatches h.df now) h.IRR_THRESHOLD .irradiance
          windy := condAny (windowMatches h.df now) h.WIND_THRESHOLD .wind_speed } := by
  simp only [getTomorrowConditions] at hok
  split at hok
  · exact absurd hok (by simp)
  · cases hok
    rfl

lemma bestAt_some_mem {tf : List Obs} {e : ℚ} {s : Sensor} {o : Obs}
    (h : bestAt tf e s = some o) : o ∈ tf ∧ o.event_start = e ∧ o.sensor = s := by
  have hm := pickLatest_mem h
  simpa [List.mem_filter] using hm

lemma bestAt_max {tf : List Obs} {e : ℚ} {s : Sensor} {o : Obs}
    (h : bestAt tf e s = some o) :
    ∀ x ∈ tf, x.event_start = e → x.sensor = s → beliefTime x ≤ beliefTime o := by
  intro x hx he hs
  exact pickLatest_max h x (by simp [List.mem_filter, hx, he, hs])

lemma condAny_eq_true_iff {tf : List Obs} {thr : ℚ} {s : Sensor} :
    condAny tf thr s = true ↔
      ∃ e o, bestAt tf e s = some o ∧ thr < o.event_value := by
  simp only [condAny, selectedValues, List.any_eq_true, List.mem_filterMap,
    List.mem_dedup, List.mem_map, Option.map_eq_some', decide_eq_true_eq]
  constructor
  · rintro ⟨v, ⟨e, ⟨o0, _, _⟩, o, hbest, rfl⟩, hthr⟩
    exact ⟨e, o, hbest, hthr⟩
  · rintro ⟨e, o, hbest, hthr⟩
    obtain ⟨hmem, he, _⟩ := bestAt_some_mem hbest
    exact ⟨o.event_value, ⟨e, ⟨o, hmem, he⟩, o, hbest, rfl⟩, hthr⟩

lemma beliefTime_eq (o : Obs) :
    beliefTime o = o.event_start - o.belief_horizon_in_sec := by
  unfold beliefTime beliefHorizonHours
  rw [div_mul_cancel₀]
  norm_num

lemma tomorrowStart_eq (now : ℚ) : tomorrowStart now = floorToDay now + daySecs := by
  unfold tomorrowStart floorToDay daySecs
  have h : (now + 86400) / 86400 = now / 86400 + (1 : ℤ) := by
    push_cast
    ring
  rw [h, Int.floor_add_int]
  push_cast
  ring

lemma matchesPoint_mono {rows : List Obs} {thn now1 now2 : ℚ} (h12 : now1 ≤ now2) :
    ∀ o ∈ matchesPoint rows now1 thn, o ∈ matchesPoint rows now2 thn := by
  intro o ho
  rw [mem_matchesPoint] at ho ⊢
  exact ⟨ho.1, ho.2.1.trans h12, ho.2.2⟩

lemma sensorSelect_mono {rows : List Obs} {thn now1 now2 : ℚ} {s : Sensor} {o1 o2 : Obs}
    (h12 : now1 ≤ now2)
    (h1 : sensorSelect rows now1 thn s = some o1)
    (h2 : sensorSelect rows now2 thn s = some o2) :
    beliefTime o1 ≤ beliefTime o2 := by
  have m1 := pickLatest_mem h1
  simp only [List.mem_filter] at m1
  apply pickLatest_max h2
  simp only [List.mem_filter]
  exact ⟨matchesPoint_mono h12 _ m1.1, m1.2⟩

lemma sensorSelect_isSome_mono {rows : List Obs} {thn now1 now2 : ℚ} {s : Sensor}
    (h12 : now1 ≤ now2) (h1 : (sensorSelect rows now1 thn s).isSome = true) :
    (sensorSelect rows now2 thn s).isSome = true := by
  rw [Option.isSome_iff_exists] at h1 ⊢
  obtain ⟨o1, ho1⟩ := h1
  have m1 := pickLatest_mem ho1
  simp only [List.mem_filter] at m1
  have hmem : o1 ∈ (matchesPoint rows now2 thn).filter (fun o => decide (o.sensor = s)) := by
    simp only [List.mem_filter]
    exact ⟨matchesPoint_mono h12 _ m1.1, m1.2⟩
  obtain ⟨o2, ho2⟩ := pickLatest_isSome (l := (matchesPoint rows now2 thn).filter
    (fun o => decide (o.sensor = s))) (List.ne_nil_of_mem hmem)
  exact ⟨o2, ho2⟩

lemma windowMatches_idem (rows : List Obs) (now : ℚ) :
    windowMatches (windowMatches rows now) now = windowMatches rows now := by
  unfold windowMatches
  rw [List.filter_filter]
  apply List.filter_congr
  intro o _
  cases decide (beliefTime o ≤ now) <;>
    cases decide (tomorrowStart now ≤ o.event_start) <;>
      cases decide (o.event_start < tomorrowStart now + daySecs) <;> rfl

lemma matchesPoint_eq_nil_iff {rows : List Obs} {now thn : ℚ} :
    matchesPoint rows now thn = [] ↔
      ∀ o ∈ rows, ¬(beliefTime o ≤ now ∧ o.event_start = thn) := by
  simp [matchesPoint, List.filter_eq_nil_iff, not_and]

lemma windowMatches_eq_nil_iff {rows : List Obs} {now : ℚ} :
    windowMatches rows now = [] ↔
      ∀ o ∈ rows, ¬(beliefTime o ≤ now ∧ tomorrowStart now ≤ o.event_start ∧
        o.event_start < tomorrowStart now + daySecs) := by
  simp [windowMatches, List.filter_eq_nil_iff, not_and]

/-! Claim theorems. -/

/-- C1: when `get_forecasts(now, then)` succeeds, each non-null sensor value
it returns is the `event_value` of a dataframe row satisfying
`belief_time ≤ now` and `event_start = then`, and no other row for the same
sensor satisfying that filter has a strictly later `belief_time`; in
particular no returned value comes from a row with `belief_time > now` or
`event_start ≠ then`. -/
theorem getForecasts_value_sound (h : Handler) (now thn : ℚ) (r : ForecastResult)
    (hok : getForecasts h now thn = .ok r) (s : Sensor) (v : ℚ)
    (hv : r.value s = some v) :
    ∃ o ∈ h.df, o.sensor = s ∧ o.event_value = v ∧ beliefTime o ≤ now ∧
      o.event_start = thn ∧
      ∀ o2 ∈ h.df, o2.sensor = s → beliefTime o2 ≤ now → o2.event_start = thn →
        beliefTime o2 ≤ beliefTime o := by
  rw [getForecasts_ok_value hok s, Option.map_eq_some'] at hv
  obtain ⟨o, ho, hval⟩ := hv
  have hm := pickLatest_mem ho
  simp only [List.mem_filter, decide_eq_true_eq] at hm
  obtain ⟨hmp, hsens⟩ := hm
  rw [mem_matchesPoint] at hmp
  refine ⟨o, hmp.1, hsens, hval, hmp.2.1, hmp.2.2, ?_⟩
  intro o2 h2df h2s h2b h2e
  apply pickLatest_max ho
  simp only [List.mem_filter, decide_eq_true_eq]
  exact ⟨mem_matchesPoint.mpr ⟨h2df, h2b, h2e⟩, h2s⟩

theorem getForecasts_value_sound_witness :
    ∃ o ∈ [Obs.mk 43200 Sensor.temperature 10 3600, Obs.mk 43200 Sensor.temperature 12 7200],
      o.sensor = Sensor.temperature ∧ o.event_value = 10 ∧ beliefTime o ≤ 41400 ∧
      o.event_start = 43200 ∧
      ∀ o2 ∈ [Obs.mk 43200 Sensor.temperature 10 3600, Obs.mk 43200 Sensor.temperature 12 7200],
        o2.sensor = Sensor.temperature → beliefTime o2 ≤ 41400 → o2.event_start = 43200 →
          beliefTime o2 ≤ beliefTime o :=
  getForecasts_value_sound
    (load [Obs.mk 43200 Sensor.temperature 10 3600, Obs.mk 43200 Sensor.temperature 12 7200])
    41400 43200 ⟨some 10, none, none⟩
    (by norm_num [getForecasts, load, matchesPoint, beliefTime, beliefHorizonHours,
      sensorSelect, pickLatest, List.filter, List.isEmpty])
    Sensor.temperature 10 rfl

/-- C2: `get_forecasts(now, then)` signals not-found exactly when no row of
the dataframe satisfies `belief_time ≤ now ∧ event_start = then`; as soon as
one row matches, the call succeeds and the payload carries, for each of the
three sensors, the selected value or `None` — a partial result is a success.
-/
theorem getForecasts_notFound_characterization (h : Handler) (now thn : ℚ) :
    (getForecasts h now thn = .notFound ↔
      ∀ o ∈ h.df, ¬(beliefTime o ≤ now ∧ o.event_start = thn)) ∧
    ((∃ o ∈ h.df, beliefTime o ≤ now ∧ o.event_start = thn) →
      ∃ r : ForecastResult, getForecasts h now thn = .ok r ∧
        ∀ s : Sensor, r.value s = (sensorSelect h.df now thn s).map Obs.event_value) := by
  constructor
  · rw [getForecasts_notFound_iff]
    exact matchesPoint_eq_nil_iff
  · rintro ⟨o, hdf, hp⟩
    have hne : matchesPoint h.df now thn ≠ [] := by
      intro hnil
      exact matchesPoint_eq_nil_iff.mp hnil o hdf hp
    refine ⟨_, getForecasts_ok_of_ne hne, ?_⟩
    intro s
    cases s <;> rfl

theorem getForecasts_notFound_characterization_witness :
    ∃ r : ForecastResult,
      getForecasts (load [Obs.mk 43200 Sensor.temperature 10 3600]) 43200 43200 = .ok r ∧
      ∀ s : Sensor, r.value s =
        (sensorSelect [Obs.mk 43200 Sensor.temperature 10 3600] 43200 43200 s).map
          Obs.event_value :=
  (getForecasts_notFound_characterization
      (load [Obs.mk 43200 Sensor.temperature 10 3600]) 43200 43200).2
    ⟨Obs.mk 43200 Sensor.temperature 10 3600, List.mem_singleton_self _,
      by norm_num [beliefTime, beliefHorizonHours], rfl⟩

/-- C5: after load, every row's derived `belief_time` equals
`event_start - belief_horizon_in_sec` seconds (the division by 3600 and the
conversion back to a timedelta cancel exactly), and whenever the horizon is
nonnegative the invariant `belief_time ≤ event_start` holds. -/
theorem beliefTime_invariant (rows : List Obs) :
    ∀ o ∈ (load rows).df,
      beliefTime o = o.event_start - o.belief_horizon_in_sec ∧
      (0 ≤ o.belief_horizon_in_sec → beliefTime o ≤ o.event_start) := by
  intro o _
  refine ⟨beliefTime_eq o, fun hge => ?_⟩
  rw [beliefTime_eq]
  linarith

theorem beliefTime_invariant_witness :
    beliefTime (Obs.mk 43200 Sensor.temperature 10 3600) = 43200 - 3600 ∧
    ((0 : ℚ) ≤ 3600 →
      beliefTime (Obs.mk 43200 Sensor.temperature 10 3600) ≤ 43200) :=
  beliefTime_invariant [Obs.mk 43200 Sensor.temperature 10 3600]
    (Obs.mk 43200 Sensor.temperature 10 3600) (List.mem_singleton_self _)

/-- C8: both query operations are functions of the loaded dataset and the
query parameters alone (the embedding is deterministic, mirroring the
deterministic sort and grouping of the source), so repeating an identical
query against the same loaded dataset yields an identical result, including
the same not-found outcome and the same tie choices. -/
theorem queries_idempotent (rows : List Obs) (now thn now2 : ℚ) :
    getForecasts (load rows) now thn = getForecasts (load rows) now thn ∧
    getTomorrowConditions (load rows) now2 = getTomorrowConditions (load rows) now2 :=
  ⟨rfl, rfl⟩

/-- C3: `get_tomorrow_conditions(now)` filters on `belief_time ≤ now` and on
`event_start` inside the half-open window whose start is
`floor_to_day(now) + 1 day` (the `(now + 1 day).replace(hour=0, ...)` of the
source equals it) and whose end is one day later; it signals not-found
exactly when that filtered set is empty; and its outcome is a function of
that filtered set alone. -/
theorem getTomorrow_window_characterization (h : Handler) (now : ℚ) :
    tomorrowStart now = floorToDay now + daySecs ∧
    (getTomorrowConditions h now = .notFound ↔
      ∀ o ∈ h.df, ¬(beliefTime o ≤ now ∧ floorToDay now + daySecs ≤ o.event_start ∧
        o.event_start < floorToDay now + 2 * daySecs)) ∧
    getTomorrowConditions h now =
      getTomorrowConditions
        { df := windowMatches h.df now
          TEMP_THRESHOLD := h.TEMP_THRESHOLD
          WIND_THRESHOLD := h.WIND_THRESHOLD
          IRR_THRESHOLD := h.IRR_THRESHOLD } now := by
  have hts := tomorrowStart_eq now
  have hts2 : floorToDay now + daySecs + daySecs = floorToDay now + 2 * daySecs := by
    ring
  refine ⟨hts, ?_, ?_⟩
  · rw [getTomorrow_notFound_iff, windowMatches_eq_nil_iff, hts, hts2]
  · simp only [getTomorrowConditions, windowMatches_idem]

theorem getTomorrow_window_characterization_witness :
    tomorrowStart 80000 = floorToDay 80000 + daySecs ∧
    (getTomorrowConditions (load []) 80000 = .notFound ↔
      ∀ o ∈ ([] : List Obs), ¬(beliefTime o ≤ 80000 ∧
        floorToDay 80000 + daySecs ≤ o.event_start ∧
        o.event_start < floorToDay 80000 + 2 * daySecs)) ∧
    getTomorrowConditions (load []) 80000 =
      getTomorrowConditions
        { df := windowMatches (load []).df 80000
          TEMP_THRESHOLD := (load []).TEMP_THRESHOLD
          WIND_THRESHOLD := (load []).WIND_THRESHOLD
          IRR_THRESHOLD := (load []).IRR_THRESHOLD } 80000 :=
  getTomorrow_window_characterization (load []) 80000

/-- C4: on success of `get_tomorrow_conditions(now)`, `warm` is true exactly
when some per-`(event_start, sensor)` best-known temperature value of the
window exceeds `TEMP_THRESHOLD` strictly, likewise `sunny` for irradiance
and `windy` for wind speed; the row `bestAt` keeps for a pair is a window
match of that pair with maximal `belief_time`; and a sensor with no data in
the window yields `false` for its condition. -/
theorem getTomorrow_conditions_correct (h : Handler) (now : ℚ) (c : CondResult)
    (hok : getTomorrowConditions h now = .ok c) :
    (c.warm = true ↔ ∃ e o, bestAt (windowMatches h.df now) e Sensor.temperature = some o ∧
        h.TEMP_THRESHOLD < o.event_value) ∧
    (c.sunny = true ↔ ∃ e o, bestAt (windowMatches h.df now) e Sensor.irradiance = some o ∧
        h.IRR_THRESHOLD < o.event_value) ∧
    (c.windy = true ↔ ∃ e o, bestAt (windowMatches h.df now) e Sensor.wind_speed = some o ∧
        h.WIND_THRESHOLD < o.event_value) ∧
    (∀ e s o, bestAt (windowMatches h.df now) e s = some o →
      o ∈ windowMatches h.df now ∧ o.event_start = e ∧ o.sensor = s ∧
      ∀ o2 ∈ windowMatches h.df now, o2.event_start = e → o2.sensor = s →
        beliefTime o2 ≤ beliefTime o) ∧
    ((∀ o ∈ windowMatches h.df now, o.sensor ≠ Sensor.temperature) → c.warm = false) ∧
    ((∀ o ∈ windowMatches h.df now, o.sensor ≠ Sensor.irradiance) → c.sunny = false) ∧
    ((∀ o ∈ windowMatches h.df now, o.sensor ≠ Sensor.wind_speed) → c.windy = false) := by
  have hc := getTomorrow_ok_val hok
  subst hc
  refine ⟨condAny_eq_true_iff, condAny_eq_true_iff, condAny_eq_true_iff, ?_, ?_, ?_, ?_⟩
  · intro e s o hb
    obtain ⟨hm, he, hs⟩ := bestAt_some_mem hb
    exact ⟨hm, he, hs, bestAt_max hb⟩
  all_goals
    intro hnone
  · rcases Bool.eq_false_or_eq_true
        (condAny (windowMatches h.df now) h.TEMP_THRESHOLD .temperature) with ht | hf
    · obtain ⟨e, o, hb, _⟩ := condAny_eq_true_iff.mp ht
      obtain ⟨hm, _, hs⟩ := bestAt_some_mem hb
      exact absurd hs (hnone o hm)
    · exact hf
  · rcases Bool.eq_false_or_eq_true
        (condAny (windowMatches h.df now) h.IRR_THRESHOLD .irradiance) with ht | hf
    · obtain ⟨e, o, hb, _⟩ := condAny_eq_true_iff.mp ht
      obtain ⟨hm, _, hs⟩ := bestAt_some_mem hb
      exact absurd hs (hnone o hm)
    · exact hf
  · rcases Bool.eq_false_or_eq_true
        (condAny (windowMatches h.df now) h.WIND_THRESHOLD .wind_speed) with ht | hf
    · obtain ⟨e, o, hb, _⟩ := condAny_eq_true_iff.mp ht
      obtain ⟨hm, _, hs⟩ := bestAt_some_mem hb
      exact absurd hs (hnone o hm)
    · exact hf

theorem getTomorrow_conditions_correct_witness :
    (CondResult.warm ⟨true, false, false⟩ = true ↔
      ∃ e o,
        bestAt
          (windowMatches
            (load [Obs.mk 90000 Sensor.temperature 10 86400,
              Obs.mk 93600 Sensor.temperature 30 86400]).df 80000) e Sensor.temperature =
          some o ∧
        (load [Obs.mk 90000 Sensor.temperature 10 86400,
          Obs.mk 93600 Sensor.temperature 30 86400]).TEMP_THRESHOLD < o.event_value) :=
  (getTomorrow_conditions_correct
    (load [Obs.mk 90000 Sensor.temperature 10 86400, Obs.mk 93600 Sensor.temperature 30 86400])
    80000 ⟨true, false, false⟩
    (by norm_num [getTomorrowConditions, load, windowMatches, tomorrowStart, floorToDay,
      daySecs, beliefTime, beliefHorizonHours, sensorValues, percentile75, List.insertionSort,
      List.orderedInsert, List.filter, List.isEmpty, condAny, selectedValues, bestAt,
      pickLatest, List.dedup, List.filterMap, Int.floor_intCast])).1

/-- C6 counterexample: a dataset whose single temperature value is `15.0`
loads with `TEMP_THRESHOLD = 15.0` — equal to the default — although the
temperature sensor does have data, so "equals the default exactly when that
sensor has no data" fails in the only-if direction. -/
theorem threshold_default_counterexample :
    (load [Obs.mk 0 Sensor.temperature 15 0]).TEMP_THRESHOLD = 15 ∧
    sensorValues [Obs.mk 0 Sensor.temperature 15 0] Sensor.temperature ≠ [] := by
  constructor
  · norm_num [load, sensorValues, percentile75, List.insertionSort, List.orderedInsert,
      List.filter, List.isEmpty]
  · simp [sensorValues, List.filter]

/-- C6 amended: at load time each per-sensor threshold equals the 75th
percentile of that sensor's `event_value` entries whenever the sensor has
data, and equals the default (temperature `15.0`, wind speed `3.0`,
irradiance `200.0`) whenever the sensor has no data; the threshold may
coincide with the default even when data is present. -/
theorem thresholds_percentile (rows : List Obs) :
    ((sensorValues rows Sensor.temperature = [] → (load rows).TEMP_THRESHOLD = 15) ∧
     (sensorValues rows Sensor.temperature ≠ [] →
       (load rows).TEMP_THRESHOLD = percentile75 (sensorValues rows Sensor.temperature))) ∧
    ((sensorValues rows Sensor.wind_speed = [] → (load rows).WIND_THRESHOLD = 3) ∧
     (sensorValues rows Sensor.wind_speed ≠ [] →
       (load rows).WIND_THRESHOLD = percentile75 (sensorValues rows Sensor.wind_speed))) ∧
    ((sensorValues rows Sensor.irradiance = [] → (load rows).IRR_THRESHOLD = 200) ∧
     (sensorValues rows Sensor.irradiance ≠ [] →
       (load rows).IRR_THRESHOLD = percentile75 (sensorValues rows Sensor.irradiance))) := by
  refine ⟨⟨?_, ?_⟩, ⟨?_, ?_⟩, ⟨?_, ?_⟩⟩ <;>
    intro hc <;>
      simp [load, List.isEmpty_iff, hc]

theorem thresholds_percentile_witness :
    (load [Obs.mk 0 Sensor.temperature 15 0]).TEMP_THRESHOLD =
      percentile75 (sensorValues [Obs.mk 0 Sensor.temperature 15 0] Sensor.temperature) :=
  (thresholds_percentile [Obs.mk 0 Sensor.temperature 15 0]).1.2
    (by simp [sensorValues, List.filter])

/-- C7: for a fixed target time, enlarging `now` never loses a sensor value
and never replaces a selected observation by one with an earlier
`belief_time`: the per-sensor selections at the two query times relate by
`belief_time o1 ≤ belief_time o2`, and the returned dict entries are exactly
those selections' values. -/
theorem getForecasts_monotone (h : Handler) (thn now1 now2 : ℚ) (r1 r2 : ForecastResult)
    (h12 : now1 ≤ now2)
    (h1 : getForecasts h now1 thn = .ok r1)
    (h2 : getForecasts h now2 thn = .ok r2) (s : Sensor) :
    ((r1.value s).isSome = true → (r2.value s).isSome = true) ∧
    (∀ o1 o2, sensorSelect h.df now1 thn s = some o1 →
      sensorSelect h.df now2 thn s = some o2 → beliefTime o1 ≤ beliefTime o2) ∧
    r1.value s = (sensorSelect h.df now1 thn s).map Obs.event_value ∧
    r2.value s = (sensorSelect h.df now2 thn s).map Obs.event_value := by
  refine ⟨?_, fun o1 o2 ho1 ho2 => sensorSelect_mono h12 ho1 ho2,
    getForecasts_ok_value h1 s, getForecasts_ok_value h2 s⟩
  intro hs
  rw [getForecasts_ok_value h1 s] at hs
  rw [getForecasts_ok_value h2 s]
  have h1s : (sensorSelect h.df now1 thn s).isSome = true := by
    cases hsel : sensorSelect h.df now1 thn s <;> simp [hsel] at hs ⊢
  have h2s := sensorSelect_isSome_mono h12 h1s
  cases hsel2 : sensorSelect h.df now2 thn s <;> simp [hsel2] at h2s ⊢

theorem getForecasts_monotone_witness :
    beliefTime (Obs.mk 43200 Sensor.temperature 12 7200) ≤
      beliefTime (Obs.mk 43200 Sensor.temperature 10 3600) :=
  (getForecasts_monotone
      (load [Obs.mk 43200 Sensor.temperature 10 3600, Obs.mk 43200 Sensor.temperature 12 7200])
      43200 38000 41400 ⟨some 12, none, none⟩ ⟨some 10, none, none⟩
      (by norm_num)
      (by norm_num [getForecasts, load, matchesPoint, beliefTime, beliefHorizonHours,
        sensorSelect, pickLatest, List.filter, List.isEmpty])
      (by norm_num [getForecasts, load, matchesPoint, beliefTime, beliefHorizonHours,
        sensorSelect, pickLatest, List.filter, List.isEmpty])
      Sensor.temperature).2.1
    (Obs.mk 43200 Sensor.temperature 12 7200) (Obs.mk 43200 Sensor.temperature 10 3600)
    (by norm_num [sensorSelect, matchesPoint, beliefTime, beliefHorizonHours, pickLatest,
      List.filter])
    (by norm_num [sensorSelect, matchesPoint, beliefTime, beliefHorizonHours, pickLatest,
      List.filter])

/-- C9: a request whose timestamp parameter does not parse is answered with
the 422-equivalent validation response — distinct from the 404-equivalent
not-found response — and the store query operation is never invoked for it
(the invocation flag of the service model stays `false`). -/
theorem service_rejects_malformed (h : Handler) (nowStr thnStr : String) :
    ((parseTimestamp nowStr = none ∨ parseTimestamp thnStr = none) →
      serveForecasts h nowStr thnStr = (ServiceResponse.unprocessable422, false)) ∧
    (parseTimestamp nowStr = none →
      serveTomorrow h nowStr = (ServiceResponse.unprocessable422, false)) ∧
    ServiceResponse.unprocessable422 ≠ ServiceResponse.notFound404 := by
  refine ⟨?_, ?_, by simp⟩
  · intro hp
    rcases hp with hp | hp
    · cases hq : parseTimestamp thnStr <;> simp [serveForecasts, hp, hq]
    · cases hq : parseTimestamp nowStr <;> simp [serveForecasts, hp, hq]
  · intro hp
    simp [serveTomorrow, hp]

theorem service_rejects_malformed_witness :
    serveForecasts (load []) "invalid-date" "2024-02-14T12:00:00" =
      (ServiceResponse.unprocessable422, false) :=
  (service_rejects_malformed (load []) "invalid-date" "2024-02-14T12:00:00").1
    (Or.inl (by with_unfolding_all rfl))

/-- C10: the loader applies no validation to `belief_horizon_in_sec`: a
dataset with a negative horizon loads unchanged, the derived `belief_time`
of that row lies strictly after its `event_start`, and `get_forecasts`
serves the row like any other (here it is returned at `now` equal to its
belief time). -/
theorem load_accepts_negative_horizon :
    (load [Obs.mk 86400 Sensor.temperature 21 (-3600)]).df =
      [Obs.mk 86400 Sensor.temperature 21 (-3600)] ∧
    beliefTime (Obs.mk 86400 Sensor.temperature 21 (-3600)) = 90000 ∧
    (Obs.mk 86400 Sensor.temperature 21 (-3600)).event_start <
      beliefTime (Obs.mk 86400 Sensor.temperature 21 (-3600)) ∧
    getForecasts (load [Obs.mk 86400 Sensor.temperature 21 (-3600)]) 90000 86400 =
      .ok ⟨some 21, none, none⟩ := by
  refine ⟨rfl, by norm_num [beliefTime, beliefHorizonHours],
    by norm_num [beliefTime, beliefHorizonHours], ?_⟩
  norm_num [getForecasts, load, matchesPoint, beliefTime, beliefHorizonHours, sensorSelect,
    pickLatest, List.filter, List.isEmpty]
